import Mathlib

/-!
Verification of the fast-admin schema-driven admin backend.

Shallow embedding of the Python source under `src/core/`:
* `auth.py` — `AuthManager.authenticate_user`, `SessionManager.get_session`,
  `SessionManager.destroy_session`, `AdminAuthMiddleware.get_user_by_id`;
* `routes.py` — `CRUDRouter._check_permissions`, pagination of
  `CRUDRouter.list_view`, the update statement of `CRUDRouter.update_action`,
  and the validation models built in `CRUDRouter.__init__`;
* `forms.py` — `FormGenerator.get_python_type_and_field_type`,
  `FormGenerator.create_form_field`, `FormGenerator.generate_pydantic_model`,
  `FormGenerator.generate_update_model`;
* `models.py` — the `users` table column metadata.

Python dictionaries are embedded as association lists of `String × Value`;
database stores are embedded as lists of typed rows, with each SQL statement
translated to the corresponding pure list operation.  All functions are total:
the Python code catches the library exceptions relevant to the verified
claims (argon2 `VerifyMismatchError` in `verify_password`) and the embedding
reflects the resulting boolean outcome.
-/

namespace FastAdmin

/-- A Python runtime value, restricted to the shapes stored in the rows and
dictionaries that the verified code manipulates. -/
inductive Value where
  | vInt (n : Int)
  | vStr (s : String)
  | vBool (b : Bool)
  | vNone
  deriving DecidableEq, Repr

/-- Python truthiness for `Value` (`if not user_data.get(...)`). -/
def truthy : Value → Bool
  | .vInt n => n != 0
  | .vStr s => s != ""
  | .vBool b => b
  | .vNone => false

/-- A Python dict, as an association list (keys unique in all rows we build). -/
abbrev Dict := List (String × Value)

/-- `d.get(k, dflt)`. -/
def dictGet (d : Dict) (k : String) (dflt : Value) : Value :=
  match d.find? (fun p => p.fst == k) with
  | some p => p.snd
  | none => dflt

/-- `d.pop(k, None)` viewed as the resulting dict (the key is removed). -/
def dictPop (d : Dict) (k : String) : Dict :=
  d.filter (fun p => p.fst != k)

/-- Extract the string payload of a `Value` (total; the call sites only reach
it on `vStr` values). -/
def vStrD : Value → String
  | .vStr s => s
  | _ => ""

/-- A row of the `users` table (`src/core/models.py`). -/
structure UserRow where
  id : Int
  username : String
  email : String
  password_hash : String
  first_name : Option String
  last_name : Option String
  is_active : Bool
  is_staff : Bool
  is_superuser : Bool
  date_joined : Int
  last_login : Option Int
  deriving DecidableEq, Repr

/-- Optional string column value. -/
def ostr : Option String → Value
  | some s => .vStr s
  | none => .vNone

/-- Optional integer/datetime column value. -/
def oint : Option Int → Value
  | some n => .vInt n
  | none => .vNone

/-- `dict(user_row._mapping)`: the users row as a Python dict, in column
order of `models.py`. -/
def userDict (u : UserRow) : Dict :=
  [("id", .vInt u.id),
   ("username", .vStr u.username),
   ("email", .vStr u.email),
   ("password_hash", .vStr u.password_hash),
   ("first_name", ostr u.first_name),
   ("last_name", ostr u.last_name),
   ("is_active", .vBool u.is_active),
   ("is_staff", .vBool u.is_staff),
   ("is_superuser", .vBool u.is_superuser),
   ("date_joined", .vInt u.date_joined),
   ("last_login", oint u.last_login)]

/-- The row filter of `authenticate_user`:
`(users.c.username == username) | (users.c.email == username)`. -/
def matchesIdent (ident : String) (u : UserRow) : Bool :=
  u.username == ident || u.email == ident

/-- `AuthManager.authenticate_user` (`auth.py:258-288`).  `verify` abstracts
`PasswordManager.verify_password`, which returns a boolean (argon2 mismatch
is caught inside it).  The store stands for the `users` table; `.first()` is
`List.find?`. -/
def authenticateUser (verify : String → String → Bool) (store : List UserRow)
    (username password : String) : Option Dict :=
  match store.find? (matchesIdent username) with
  | none => none
  | some row =>
    let user_data := userDict row
    if !truthy (dictGet user_data "is_active" (.vBool false)) then none
    else if !verify password (vStrD (dictGet user_data "password_hash" .vNone)) then none
    else some (dictPop user_data "password_hash")

/-- `AdminAuthMiddleware.get_user_by_id` (`auth.py:397-415`). -/
def getUserById (store : List UserRow) (uid : Int) : Option Dict :=
  match store.find? (fun u => u.id == uid) with
  | none => none
  | some row => some (dictPop (userDict row) "password_hash")

/-- A fixed sample user for the witness instantiations. -/
def sampleUser : UserRow :=
  { id := 1, username := "alice", email := "alice@example.com",
    password_hash := "h0", first_name := none, last_name := none,
    is_active := true, is_staff := true, is_superuser := false,
    date_joined := 0, last_login := none }

/-! ## Sessions (`SessionManager`, `auth.py:86-245`) -/

/-- A Python `datetime`: an instant `t` (minutes, say, on a UTC scale — the
unit is irrelevant) plus the timezone-awareness flag `tzinfo is not None`.
`replace(tzinfo=UTC)` keeps `t` and sets `aware` (the naive values read back
from the database store UTC wall time, as all values written are UTC). -/
structure DT where
  t : Int
  aware : Bool
  deriving DecidableEq, Repr

/-- `d if d.tzinfo else d.replace(tzinfo=UTC)` — the normalization
`get_session` applies to each datetime read from the database. -/
def normalizeDT (d : DT) : DT :=
  if d.aware then d else { d with aware := true }

/-- Comparison of two timezone-aware datetimes (`session['expires_at'] < now`)
compares the instants. -/
def dtLt (a b : DT) : Bool :=
  a.t < b.t

/-- A row of the `sessions` table (`models.py`). -/
structure SessionRow where
  session_id : String
  user_id : Int
  created_at : DT
  expires_at : DT
  last_activity : DT
  ip_address : Option String
  deriving DecidableEq, Repr

/-- The dict `get_session` returns on success. -/
structure SessionData where
  user_id : Int
  created_at : DT
  expires_at : DT
  ip_address : Option String
  last_activity : DT
  deriving DecidableEq, Repr

/-- `SessionManager.destroy_session` (`auth.py:204-220`):
`DELETE FROM sessions WHERE session_id = sid`; returns `rowcount > 0` and the
resulting store. -/
def destroySession (store : List SessionRow) (sid : String) :
    Bool × List SessionRow :=
  (store.any (fun s => s.session_id == sid),
   store.filter (fun s => s.session_id != sid))

/-- `SessionManager.get_session` (`auth.py:141-202`): looks the token up,
normalizes the datetimes, eagerly destroys the session when
`expires_at < now`, otherwise refreshes `last_activity` and returns the
session dict.  The pair is (returned value, resulting session store). -/
def getSession (store : List SessionRow) (sid : String) (now : DT) :
    Option SessionData × List SessionRow :=
  match store.find? (fun s => s.session_id == sid) with
  | none => (none, store)
  | some row =>
    let expires := normalizeDT row.expires_at
    let created := normalizeDT row.created_at
    if dtLt expires now then
      (none, (destroySession store sid).2)
    else
      (some { user_id := row.user_id, created_at := created,
              expires_at := expires, ip_address := row.ip_address,
              last_activity := now },
       store.map (fun s =>
         if s.session_id == sid then { s with last_activity := now } else s))

/-! ## Authorization (`CRUDRouter._check_permissions`, `routes.py:69-85`) -/

/-- A `fastapi.HTTPException` as raised by the permission check. -/
structure HTTPError where
  status : Nat
  detail : String
  deriving DecidableEq, Repr

/-- `CRUDRouter._check_permissions(request, action)`.  `user` is
`getattr(request.state, 'user', None)`; a raised `HTTPException` is the
`Except.error` case.  The `action` argument (and the table the router was
built for) is never consulted. -/
def checkPermissions (user : Option Dict) (_action : String) :
    Except HTTPError Bool :=
  match user with
  | none => .error { status := 401, detail := "Authentication required" }
  | some u =>
    if truthy (dictGet u "is_superuser" (.vBool false)) then .ok true
    else if !truthy (dictGet u "is_staff" (.vBool false)) then
      .error { status := 403, detail := "Staff privileges required" }
    else .ok true

/-! ## Form and validation-model generation (`forms.py`) -/

/-- SQLAlchemy column type classes used by `models.py` /
`FormGenerator.type_mapping`. -/
inductive CType where
  | cInteger
  | cString
  | cText
  | cBoolean
  | cDateTime
  | cFloat
  deriving DecidableEq, Repr

/-- Python annotation types produced by `get_python_type_and_field_type`. -/
inductive PyType where
  | pInt
  | pStr
  | pBool
  | pDatetime
  | pFloat
  deriving DecidableEq, Repr

/-- `FormFieldType` (`forms.py:18-29`). -/
inductive FormFieldType where
  | text
  | email
  | password
  | number
  | textarea
  | checkbox
  | select
  | date
  | datetimeLocal
  | hidden
  deriving DecidableEq, Repr

/-- A SQLAlchemy `Column` restricted to the attributes the form generator
reads: name, type class, `nullable`, `default is not None`, `primary_key`,
foreign-key target full name (if any), and `type.length` (if the type class
carries one). -/
structure Col where
  name : String
  ctype : CType
  nullable : Bool
  hasDefault : Bool
  primaryKey : Bool
  fkTarget : Option String
  length : Option Nat
  deriving DecidableEq, Repr

/-- Boolean list-of-chars prefix test. -/
def chMatchFront : List Char → List Char → Bool
  | [], _ => true
  | _ :: _, [] => false
  | a :: as, b :: bs => a == b && chMatchFront as bs

/-- Boolean list-of-chars substring test. -/
def chMatchSub (needle : List Char) : List Char → Bool
  | [] => needle.isEmpty
  | b :: bs => chMatchFront needle (b :: bs) || chMatchSub needle bs

/-- Python `sub in s` on strings (substring containment). -/
def strHasSub (s sub : String) : Bool :=
  chMatchSub sub.toList s.toList

/-- Python `s.lower()` (on the character list, so that it evaluates by
kernel reduction). -/
def strLower (s : String) : String :=
  String.mk (s.data.map Char.toLower)

/-- `FormGenerator.get_python_type_and_field_type` (`forms.py:181-199`).
Name-based special cases first, then the `type_mapping` dict walked in
insertion order with `isinstance` checks.  Because SQLAlchemy `Text`
subclasses `String`, a `Text` column matches the `String` entry first and
resolves to `(str, TEXT)`, never reaching the `Text → TEXTAREA` entry. -/
def getPyAndField (c : Col) : PyType × FormFieldType :=
  if strHasSub (strLower c.name) "email" then (.pStr, .email)
  else if strHasSub (strLower c.name) "password" then (.pStr, .password)
  else if strLower c.name == "description" || strLower c.name == "content"
      || strLower c.name == "notes" then (.pStr, .textarea)
  else
    match c.ctype with
    | .cInteger => (.pInt, .number)
    | .cString => (.pStr, .text)
    | .cText => (.pStr, .text)
    | .cBoolean => (.pBool, .checkbox)
    | .cDateTime => (.pDatetime, .datetimeLocal)
    | .cFloat => (.pFloat, .number)

/-- The parts of `FormField` that `create_form_field` computes from the
column (placeholder/help text omitted: display strings with no claim about
them). -/
structure FormFieldSpec where
  name : String
  fieldType : FormFieldType
  required : Bool
  maxLength : Option Nat
  readonly : Bool
  choices : List (Value × String)
  deriving DecidableEq, Repr

/-- `FormGenerator.create_form_field` (`forms.py:201-267`).  `related` stands
for the rows `get_related_choices` fetches for a foreign key (empty when no
engine is set).  Order of the mutations to `field_type` in the source:
the resolver result, then `SELECT` when `column.foreign_keys`, then `HIDDEN`
when `'password' in column.name.lower()`. -/
def createFormField (related : List (Value × String)) (c : Col) :
    FormFieldSpec :=
  let ft0 := (getPyAndField c).2
  let ft1 := if c.fkTarget.isSome then FormFieldType.select else ft0
  let choices :=
    if c.fkTarget.isSome then
      if c.nullable then (Value.vStr "", "-- Select --") :: related else related
    else []
  let required := !c.nullable && !c.hasDefault && !c.primaryKey
  let readonly := c.primaryKey ||
    (c.name ∈ ["created_at", "updated_at", "date_joined", "last_login"])
  let ft2 :=
    if strHasSub (strLower c.name) "password" then FormFieldType.hidden else ft1
  { name := c.name, fieldType := ft2, required := required,
    maxLength := c.length, readonly := readonly, choices := choices }

/-- One field of a generated Pydantic model: `optional = true` means the
field has default `None`, `optional = false` means default `...`
(required). -/
structure PField where
  name : String
  ptype : PyType
  optional : Bool
  maxLength : Option Nat
  deriving DecidableEq, Repr

/-- The field `generate_pydantic_model` builds for a non-excluded column:
annotation from the resolver, `Optional`/`None` exactly when the column is
nullable, `max_length` propagated when the type carries a truthy length. -/
def pydanticFieldOf (c : Col) : PField :=
  { name := c.name, ptype := (getPyAndField c).1, optional := c.nullable,
    maxLength := c.length.bind (fun n => if n == 0 then none else some n) }

/-- `auto_exclude` of `generate_pydantic_model` in create mode
(`forms.py:330`). -/
def createAutoExclude : List String :=
  ["id", "created_at", "updated_at", "date_joined", "last_login", "assigned_at"]

/-- `auto_exclude` of `generate_pydantic_model` in update mode
(`forms.py:327`). -/
def updateAutoExclude : List String :=
  ["created_at", "date_joined", "assigned_at"]

/-- `FormGenerator.generate_pydantic_model` (`forms.py:312-363`), as the list
of fields of the created model, in column order.  `includeOnly = []` means
no `include` argument was passed (Python `if include and ...` treats an
empty list like `None`). -/
def genPydanticModel (cols : List Col) (exclude : List String)
    (includeOnly : List String) (forUpdate : Bool) : List PField :=
  let auto := if forUpdate then updateAutoExclude else createAutoExclude
  cols.filterMap (fun c =>
    if (exclude ++ auto).contains c.name then none
    else if !includeOnly.isEmpty && !includeOnly.contains c.name then none
    else some (pydanticFieldOf c))

/-- `FormGenerator.generate_update_model` (`forms.py:365-386`): every field
`(type | None, None)`, i.e. optional; note this builder is NOT the one
`CRUDRouter.__init__` uses for update validation. -/
def genUpdateModel (cols : List Col) : List PField :=
  let excl := ["id", "created_at", "updated_at", "date_joined", "assigned_at"]
  cols.filterMap (fun c =>
    if excl.contains c.name then none
    else some { name := c.name, ptype := (getPyAndField c).1,
                optional := true, maxLength := none })

/-- `CRUDRouter.__init__` (`routes.py:50-52`): the create validation model. -/
def routerCreateModel (cols : List Col) : List PField :=
  genPydanticModel cols [] [] false

/-- `CRUDRouter.__init__` (`routes.py:53-55`): the update validation model is
`generate_pydantic_model(..., for_update=True)`. -/
def routerUpdateModel (cols : List Col) : List PField :=
  genPydanticModel cols [] [] true

/-- The columns of the `users` table (`models.py:21-35`), with SQLAlchemy
semantics: `primary_key=True` implies `nullable=False`; `default=` present
iff written in the source; `String(n)` carries `length = n`. -/
def usersCols : List Col :=
  [{ name := "id", ctype := .cInteger, nullable := false, hasDefault := false,
     primaryKey := true, fkTarget := none, length := none },
   { name := "username", ctype := .cString, nullable := false,
     hasDefault := false, primaryKey := false, fkTarget := none,
     length := some 150 },
   { name := "email", ctype := .cString, nullable := false,
     hasDefault := false, primaryKey := false, fkTarget := none,
     length := some 254 },
   { name := "password_hash", ctype := .cString, nullable := false,
     hasDefault := false, primaryKey := false, fkTarget := none,
     length := some 128 },
   { name := "first_name", ctype := .cString, nullable := true,
     hasDefault := false, primaryKey := false, fkTarget := none,
     length := some 30 },
   { name := "last_name", ctype := .cString, nullable := true,
     hasDefault := false, primaryKey := false, fkTarget := none,
     length := some 150 },
   { name := "is_active", ctype := .cBoolean, nullable := false,
     hasDefault := true, primaryKey := false, fkTarget := none,
     length := none },
   { name := "is_staff", ctype := .cBoolean, nullable := false,
     hasDefault := true, primaryKey := false, fkTarget := none,
     length := none },
   { name := "is_superuser", ctype := .cBoolean, nullable := false,
     hasDefault := true, primaryKey := false, fkTarget := none,
     length := none },
   { name := "date_joined", ctype := .cDateTime, nullable := false,
     hasDefault := true, primaryKey := false, fkTarget := none,
     length := none },
   { name := "last_login", ctype := .cDateTime, nullable := true,
     hasDefault := false, primaryKey := false, fkTarget := none,
     length := none }]

/-- The `username` column of `usersCols`, used in witnesses. -/
def usernameCol : Col :=
  { name := "username", ctype := .cString, nullable := false,
    hasDefault := false, primaryKey := false, fkTarget := none,
    length := some 150 }

/-! ## Update action (`CRUDRouter.update_action`, `routes.py:411-442`) -/

/-- Pydantic validation of a payload against a model given as its field
list.  Validation succeeds iff every required field is supplied; Pydantic
(default config) ignores payload keys that are not model fields, and
`fields_set` is exactly the supplied model-field keys, so
`model_dump(exclude_unset=True)` is the payload restricted to model
fields. -/
def validateModel (modelFields : List PField) (payload : Dict) :
    Option Dict :=
  if modelFields.all (fun f =>
      f.optional || payload.any (fun kv => kv.fst == f.name)) then
    some (payload.filter (fun kv =>
      modelFields.any (fun f => f.name == kv.fst)))
  else none

/-- The column names assigned by the `UPDATE` statement of `update_action`:
the form data loses its `action` key (`data.pop('action', 'save')`), is
validated against the update model, and the statement's `values(...)` are
`validated_data.model_dump(exclude_unset=True)`.  `none` when validation
fails (the handler re-renders the form and runs no statement). -/
def updateActionAssignedKeys (modelFields : List PField) (formData : Dict) :
    Option (List String) :=
  let data := dictPop formData "action"
  (validateModel modelFields data).map (fun vd => vd.map Prod.fst)

/-! ## List pagination (`CRUDRouter.list_view`, `routes.py:168-251`) -/

/-- The slice of `BaseAdmin` configuration `list_view` reads for pagination
(`admin.py:38`, default 25; `routes.py:47`). -/
structure AdminCfg where
  list_per_page : Nat := 25
  deriving DecidableEq, Repr

/-- What `list_view` computes for one page: the returned items and the
pagination dict entries the claims mention. -/
structure Paginated (α : Type) where
  items : List α
  total : Nat
  totalPages : Nat
  hasNext : Bool
  hasPrevious : Bool
  deriving DecidableEq, Repr

/-- The pagination core of `list_view` over the already filtered/searched
and ordered row list: `total` is counted before pagination
(`count_query`), `offset = (page - 1) * list_per_page`, the page is
`OFFSET offset LIMIT list_per_page`, `total_pages` is the ceiling division,
`has_next = page < total_pages`.  (Pages are 1-indexed; the embedding uses
`Nat`, matching the source for every `page ≥ 1`.) -/
def listViewPage {α : Type} (filtered : List α) (cfg : AdminCfg)
    (page : Nat) : Paginated α :=
  let per := cfg.list_per_page
  let total := filtered.length
  let offset := (page - 1) * per
  { items := (filtered.drop offset).take per,
    total := total,
    totalPages := (total + per - 1) / per,
    hasNext := decide (page < (total + per - 1) / per),
    hasPrevious := decide (1 < page) }

/-- Sample column with a foreign key and a password-like name (for the C8
counterexample); shaped like a column `ForeignKey("users.id")`. -/
def passwordFkCol : Col :=
  { name := "password_ref", ctype := .cInteger, nullable := false,
    hasDefault := false, primaryKey := false, fkTarget := some "users.id",
    length := none }

/-- Sample plain foreign-key column (for the C8 witness); shaped like
`user_group.user_id` in `models.py`. -/
def userIdFkCol : Col :=
  { name := "user_id", ctype := .cInteger, nullable := false,
    hasDefault := false, primaryKey := false, fkTarget := some "users.id",
    length := none }

/-- Sample session row whose naive `expires_at` lies in the past (for the C2
witness). -/
def sampleSession : SessionRow :=
  { session_id := "t0", user_id := 1, created_at := ⟨0, true⟩,
    expires_at := ⟨5, false⟩, last_activity := ⟨0, true⟩,
    ip_address := none }

/-! ## Helper lemmas -/

@[simp] lemma truthy_vBool (b : Bool) : truthy (.vBool b) = b := rfl

@[simp] lemma vStrD_vStr (s : String) : vStrD (.vStr s) = s := rfl

@[simp] lemma dictGet_userDict_is_active (u : UserRow) :
    dictGet (userDict u) "is_active" (.vBool false) = .vBool u.is_active := by
  simp [dictGet, userDict, List.find?]

@[simp] lemma dictGet_userDict_password_hash (u : UserRow) :
    dictGet (userDict u) "password_hash" .vNone = .vStr u.password_hash := by
  simp [dictGet, userDict, List.find?]

lemma dictPop_key_not_mem (d : Dict) (k : String) :
    k ∉ (dictPop d k).map Prod.fst := by
  intro hmem
  rcases List.mem_map.1 hmem with ⟨kv, hkv, hfst⟩
  have h := List.of_mem_filter hkv
  rw [hfst] at h
  simp at h

lemma mem_dictPop_keys {d : Dict} {k a : String}
    (h : a ∈ (dictPop d k).map Prod.fst) : a ∈ d.map Prod.fst := by
  rcases List.mem_map.1 h with ⟨kv, hkv, hfst⟩
  exact hfst ▸ List.mem_map_of_mem Prod.fst (List.mem_of_mem_filter hkv)

lemma routerCreateModel_eq (cols : List Col) :
    routerCreateModel cols = cols.filterMap (fun x =>
      if createAutoExclude.contains x.name then none
      else some (pydanticFieldOf x)) := rfl

lemma routerUpdateModel_eq (cols : List Col) :
    routerUpdateModel cols = cols.filterMap (fun x =>
      if updateAutoExclude.contains x.name then none
      else some (pydanticFieldOf x)) := rfl

lemma find?_name_filterMap (cols : List Col) (p : Col → Bool)
    (emb : Col → PField) (hname : ∀ x, (emb x).name = x.name)
    (hnd : (cols.map Col.name).Nodup) (c : Col) (hc : c ∈ cols)
    (hp : p c = false) :
    (cols.filterMap (fun x => if p x then none else some (emb x))).find?
        (fun f => f.name == c.name) = some (emb c) := by
  induction cols with
  | nil => cases hc
  | cons h t ih =>
    rw [List.map_cons, List.nodup_cons] at hnd
    rcases hnd with ⟨hn, hndt⟩
    rw [List.filterMap_cons]
    rcases List.mem_cons.1 hc with rfl | hct
    · simp only [hp, Bool.false_eq_true, if_false]
      rw [List.find?_cons_of_pos]
      simp [hname]
    · have hne : h.name ≠ c.name := fun he =>
        hn (he ▸ List.mem_map_of_mem Col.name hct)
      cases hph : p h with
      | true =>
        simp only [hph, if_true]
        exact ih hndt hct
      | false =>
        simp only [hph, Bool.false_eq_true, if_false]
        rw [List.find?_cons_of_neg]
        · exact ih hndt hct
        · simp [hname, hne]

/-! ## Claims -/

/-- C1: for every identifier/secret pair, `authenticate_user` returns the
identical failure value `none` in all three failure cases — no user row
matches the identifier as username or email, the matched user is inactive,
and the secret fails password verification — so the three causes are
indistinguishable from the returned value; the embedding is total, matching
the source where `verify_password` catches the argon2 mismatch, so no
exception escapes in these cases. -/
theorem authenticate_user_fails_closed
    (verify : String → String → Bool) (store : List UserRow)
    (ident secret : String) :
    (store.find? (matchesIdent ident) = none →
      authenticateUser verify store ident secret = none)
    ∧ (∀ row, store.find? (matchesIdent ident) = some row →
        row.is_active = false →
        authenticateUser verify store ident secret = none)
    ∧ (∀ row, store.find? (matchesIdent ident) = some row →
        verify secret row.password_hash = false →
        authenticateUser verify store ident secret = none) := by
  refine ⟨?_, ?_, ?_⟩
  · intro h
    simp [authenticateUser, h]
  · intro row h hact
    simp [authenticateUser, h, hact]
  · intro row h hver
    cases hact : row.is_active with
    | false => simp [authenticateUser, h, hact]
    | true => simp [authenticateUser, h, hact, hver]

/-- Witness for C1: concrete instance of the inactive-account case. -/
theorem authenticate_user_fails_closed_witness :
    authenticateUser (fun _ _ => true)
      [{ sampleUser with is_active := false }] "alice" "pw" = none :=
  (authenticate_user_fails_closed (fun _ _ => true)
      [{ sampleUser with is_active := false }] "alice" "pw").2.1
    { sampleUser with is_active := false } (by decide) (by decide)

/-- C2: for every stored session token whose `expires_at`
(timezone-normalized first) is strictly before now, `get_session` returns
`none` and, within the same call, the record is deleted from the store, so
it is absent immediately afterward. -/
theorem get_session_expired_returns_none_and_deletes
    (store : List SessionRow) (sid : String) (now : DT) (row : SessionRow)
    (hfind : store.find? (fun s => s.session_id == sid) = some row)
    (hexp : (normalizeDT row.expires_at).t < now.t) :
    (getSession store sid now).1 = none
    ∧ (getSession store sid now).2.find? (fun s => s.session_id == sid)
        = none := by
  have hlt : dtLt (normalizeDT row.expires_at) now = true := by
    simp [dtLt, hexp]
  constructor
  · simp [getSession, hfind, hlt]
  · simp only [getSession, hfind, hlt, if_true, destroySession]
    rw [List.find?_eq_none]
    intro x hx
    have h := List.of_mem_filter hx
    simpa [bne] using h

/-- Witness for C2: a naive expired timestamp is normalized and the record
is purged. -/
theorem get_session_expired_witness :
    (getSession [sampleSession] "t0" ⟨10, true⟩).1 = none
    ∧ (getSession [sampleSession] "t0" ⟨10, true⟩).2.find?
        (fun s => s.session_id == "t0") = none :=
  get_session_expired_returns_none_and_deletes [sampleSession] "t0"
    ⟨10, true⟩ sampleSession (by decide) (by decide)

/-- C3: `_check_permissions` decides, for every request and every
table/action, in this order: no principal → 401 unauthenticated; superuser
flag → allow; no staff flag → 403 staff-required; otherwise allow — and the
decision does not depend on the action (or the table the router serves). -/
theorem check_permissions_decision_order (user : Option Dict)
    (act act2 : String) :
    checkPermissions user act = checkPermissions user act2
    ∧ (user = none → checkPermissions user act
        = .error { status := 401, detail := "Authentication required" })
    ∧ (∀ d, user = some d →
        truthy (dictGet d "is_superuser" (.vBool false)) = true →
        checkPermissions user act = .ok true)
    ∧ (∀ d, user = some d →
        truthy (dictGet d "is_superuser" (.vBool false)) = false →
        truthy (dictGet d "is_staff" (.vBool false)) = false →
        checkPermissions user act
          = .error { status := 403, detail := "Staff privileges required" })
    ∧ (∀ d, user = some d →
        truthy (dictGet d "is_superuser" (.vBool false)) = false →
        truthy (dictGet d "is_staff" (.vBool false)) = true →
        checkPermissions user act = .ok true) := by
  refine ⟨rfl, ?_, ?_, ?_, ?_⟩
  · rintro rfl
    rfl
  · rintro d rfl h
    simp [checkPermissions, h]
  · rintro d rfl h1 h2
    simp [checkPermissions, h1, h2]
  · rintro d rfl h1 h2
    simp [checkPermissions, h1, h2]

/-- Witness for C3: a superuser principal is allowed for an arbitrary
action. -/
theorem check_permissions_witness :
    checkPermissions (some [("is_superuser", Value.vBool true)]) "delete"
      = .ok true :=
  (check_permissions_decision_order
      (some [("is_superuser", Value.vBool true)]) "delete" "view").2.2.1
    [("is_superuser", Value.vBool true)] rfl (by decide)

/-- C10: every principal dict returned to callers — by `authenticate_user`
on success and by `get_user_by_id` when resolving a session or bearer
token — has the `password_hash` key removed before it is returned, for
every user row. -/
theorem principal_never_contains_password_hash
    (verify : String → String → Bool) (store : List UserRow)
    (ident secret : String) (uid : Int) :
    (∀ p, authenticateUser verify store ident secret = some p →
      "password_hash" ∉ p.map Prod.fst)
    ∧ (∀ p, getUserById store uid = some p →
      "password_hash" ∉ p.map Prod.fst) := by
  constructor
  · intro p hp
    unfold authenticateUser at hp
    rcases hfind : store.find? (matchesIdent ident) with _ | row
    · rw [hfind] at hp
      cases hp
    · rw [hfind] at hp
      simp only [] at hp
      split at hp
      · cases hp
      · split at hp
        · cases hp
        · cases hp
          exact dictPop_key_not_mem (userDict row) "password_hash"
  · intro p hp
    unfold getUserById at hp
    rcases hfind : store.find? (fun u => u.id == uid) with _ | row
    · rw [hfind] at hp
      cases hp
    · rw [hfind] at hp
      cases hp
      exact dictPop_key_not_mem (userDict row) "password_hash"

/-- Witness for C10: the principal resolved for the sample user carries no
`password_hash` key. -/
theorem principal_never_contains_password_hash_witness :
    "password_hash" ∉ (dictPop (userDict sampleUser) "password_hash").map
      Prod.fst :=
  (principal_never_contains_password_hash (fun _ _ => true) [sampleUser]
      "alice" "pw" 1).2
    (dictPop (userDict sampleUser) "password_hash") (by decide)

/-- C4 counterexample: in the create-mode validation schema of the `users`
table, the field `is_active` (not nullable, HAS a default, not the primary
key) is required — `generate_pydantic_model` consults only `nullable`, so
the claimed "required iff not nullable, no default, and not primary key"
fails on the has-a-default conjunct. -/
theorem create_required_rule_counterexample :
    ¬ (∀ f ∈ routerCreateModel usersCols, ∀ c ∈ usersCols,
        c.name = f.name →
        ((f.optional = false) ↔
          (c.nullable = false ∧ c.hasDefault = false
            ∧ c.primaryKey = false))) := by
  decide

/-- C4 (amended): in the generated create-mode validation schema, an
included column yields a field that is required if and only if the column
is not nullable; defaults and primary-key status are not consulted (the
not-nullable/no-default/non-primary-key rule governs the HTML form field's
`required` flag in `create_form_field`, not the Pydantic schema). -/
theorem create_model_required_iff_not_nullable
    (cols : List Col) (c : Col) (hnd : (cols.map Col.name).Nodup)
    (hc : c ∈ cols) (hex : createAutoExclude.contains c.name = false) :
    (routerCreateModel cols).find? (fun f => f.name == c.name)
      = some (pydanticFieldOf c)
    ∧ ((pydanticFieldOf c).optional = false ↔ c.nullable = false) := by
  refine ⟨?_, Iff.rfl⟩
  rw [routerCreateModel_eq]
  exact find?_name_filterMap cols _ _ (fun x => rfl) hnd c hc hex

/-- Witness for C4 (amended): the `username` column of `users` in the
create schema. -/
theorem create_model_required_iff_not_nullable_witness :
    (routerCreateModel usersCols).find? (fun f => f.name == usernameCol.name)
      = some (pydanticFieldOf usernameCol) :=
  (create_model_required_iff_not_nullable usersCols usernameCol (by decide)
    (by decide) (by decide)).1

/-- C5 counterexample: the update-mode schema actually used to validate
update requests is built by `generate_pydantic_model(..., for_update=True)`
(`routes.py:53-55`), and for the `users` table it keeps every non-nullable
field (e.g. `username`, and even `id`) required — so not every included
field is optional and the empty partial payload fails validation. -/
theorem update_model_all_optional_counterexample :
    ¬ (∀ f ∈ routerUpdateModel usersCols, f.optional = true) := by
  decide

/-- C5 (amended): in the update-mode schema actually used, an included
field is optional (default `None`) if and only if its column is nullable;
non-nullable columns remain required, so only partial payloads containing
all non-nullable fields pass.  The separate `generate_update_model`, which
does make every field optional, is never used by the router. -/
theorem update_model_optional_iff_nullable
    (cols : List Col) (c : Col) (hnd : (cols.map Col.name).Nodup)
    (hc : c ∈ cols) (hex : updateAutoExclude.contains c.name = false) :
    ((routerUpdateModel cols).find? (fun f => f.name == c.name)
      = some (pydanticFieldOf c)
    ∧ ((pydanticFieldOf c).optional = true ↔ c.nullable = true))
    ∧ (∀ f ∈ genUpdateModel cols, f.optional = true) := by
  refine ⟨⟨?_, Iff.rfl⟩, ?_⟩
  · rw [routerUpdateModel_eq]
    exact find?_name_filterMap cols _ _ (fun x => rfl) hnd c hc hex
  · intro f hf
    simp only [genUpdateModel] at hf
    rcases List.mem_filterMap.1 hf with ⟨x, _, hfx⟩
    split at hfx
    · cases hfx
    · cases hfx
      rfl

/-- Witness for C5 (amended): the `username` column of `users` in the
update schema used by the router. -/
theorem update_model_optional_iff_nullable_witness :
    (routerUpdateModel usersCols).find? (fun f => f.name == usernameCol.name)
      = some (pydanticFieldOf usernameCol) :=
  (update_model_optional_iff_nullable usersCols usernameCol (by decide)
    (by decide) (by decide)).1.1

/-- C6 counterexample: the primary key `id` is NOT excluded from the
update-mode validation schema — `generate_pydantic_model` with
`for_update=True` only auto-excludes `created_at`, `date_joined`,
`assigned_at`, so the `users` update schema contains an `id` field. -/
theorem update_model_contains_primary_key :
    ¬ (∀ f ∈ routerUpdateModel usersCols, f.name ≠ "id") := by
  decide

/-- C6 (amended): the create-mode schema excludes the primary key `id`,
the creation/join timestamps and `updated_at`/`last_login`; the update-mode
schema excludes only the timestamps `created_at`, `date_joined` and
`assigned_at` — the primary key remains present (and required) in the
update schema, so "excluded from both" fails for the primary key. -/
theorem auto_managed_field_exclusion (cols : List Col) :
    (∀ f ∈ routerCreateModel cols, f.name ∉ createAutoExclude)
    ∧ (∀ f ∈ routerUpdateModel cols, f.name ∉ updateAutoExclude) := by
  constructor
  · intro f hf
    rw [routerCreateModel_eq] at hf
    rcases List.mem_filterMap.1 hf with ⟨x, _, hfx⟩
    by_cases hguard : createAutoExclude.contains x.name = true
    · rw [if_pos hguard] at hfx
      cases hfx
    · rw [if_neg hguard] at hfx
      cases hfx
      intro hmem
      exact hguard (List.elem_iff.2 hmem)
  · intro f hf
    rw [routerUpdateModel_eq] at hf
    rcases List.mem_filterMap.1 hf with ⟨x, _, hfx⟩
    by_cases hguard : updateAutoExclude.contains x.name = true
    · rw [if_pos hguard] at hfx
      cases hfx
    · rw [if_neg hguard] at hfx
      cases hfx
      intro hmem
      exact hguard (List.elem_iff.2 hmem)

/-- Witness for C6 (amended): the `username` field of the `users` create
schema is not an auto-managed name. -/
theorem auto_managed_field_exclusion_witness :
    (pydanticFieldOf usernameCol).name ∉ createAutoExclude :=
  (auto_managed_field_exclusion usersCols).1 (pydanticFieldOf usernameCol)
    (by rw [routerCreateModel_eq]
        exact List.mem_filterMap.2 ⟨usernameCol, by decide, rfl⟩)

/-- C7: for every update payload that passes validation, the `UPDATE`
statement assigns only keys present in the payload — a key absent from the
payload never appears among the assigned columns (omitted keys are never
defaulted to null); precisely, the assigned keys are the payload keys that
survive the `action` pop and name a model field. -/
theorem update_statement_assigns_only_payload_keys
    (modelFields : List PField) (formData : Dict) (ks : List String)
    (h : updateActionAssignedKeys modelFields formData = some ks) :
    (∀ k, k ∉ formData.map Prod.fst → k ∉ ks)
    ∧ (∀ k, k ∈ ks ↔
        (k ∈ (dictPop formData "action").map Prod.fst
          ∧ modelFields.any (fun f => f.name == k) = true)) := by
  have hks : ks = ((dictPop formData "action").filter (fun kv =>
      modelFields.any (fun f => f.name == kv.fst))).map Prod.fst := by
    simp only [updateActionAssignedKeys, validateModel] at h
    split at h
    · simpa using h.symm
    · simp at h
  subst hks
  constructor
  · intro k hk hmem
    rcases List.mem_map.1 hmem with ⟨kv, hkv, rfl⟩
    exact hk (mem_dictPop_keys
      (List.mem_map_of_mem Prod.fst (List.mem_of_mem_filter hkv)))
  · intro k
    constructor
    · intro hmem
      rcases List.mem_map.1 hmem with ⟨kv, hkv, rfl⟩
      refine ⟨List.mem_map_of_mem Prod.fst (List.mem_of_mem_filter hkv), ?_⟩
      have hp := List.of_mem_filter hkv
      simpa using hp
    · rintro ⟨hkd, hany⟩
      rcases List.mem_map.1 hkd with ⟨kv, hkv, rfl⟩
      exact List.mem_map_of_mem Prod.fst (List.mem_filter.2 ⟨hkv, hany⟩)

/-- Witness for C7: a one-field payload against a one-field model; the
absent key `email` is not assigned. -/
theorem update_statement_assigns_only_payload_keys_witness :
    "email" ∉ ["username"] :=
  (update_statement_assigns_only_payload_keys
      [{ name := "username", ptype := .pStr, optional := true,
         maxLength := none }]
      [("username", Value.vStr "a")] ["username"] (by decide)).1
    "email" (by decide)

/-- C8 counterexample: a foreign-key column whose name contains
`password` resolves to the `hidden` widget, not `select` — the
`'password' in column.name.lower()` override in `create_form_field` runs
after the foreign-key override. -/
theorem fk_password_widget_counterexample :
    (createFormField [] passwordFkCol).fieldType = FormFieldType.hidden
    ∧ ¬ (createFormField [] passwordFkCol).fieldType
        = FormFieldType.select := by
  decide

/-- C8 (amended): for every column with a foreign-key target whose name
does not contain `password`, the resolved widget kind is `select`,
overriding the name-based rules and the storage-type mapping; a foreign-key
column whose name contains `password` is instead forced to `hidden` by the
later password rule. -/
theorem fk_widget_select_unless_password
    (related : List (Value × String)) (c : Col)
    (hfk : c.fkTarget.isSome = true)
    (hpw : strHasSub (strLower c.name) "password" = false) :
    (createFormField related c).fieldType = FormFieldType.select := by
  simp [createFormField, hfk, hpw]

/-- Witness for C8 (amended): the `user_id` foreign-key column renders as a
select. -/
theorem fk_widget_select_unless_password_witness :
    (createFormField [] userIdFkCol).fieldType = FormFieldType.select :=
  fk_widget_select_unless_password [] userIdFkCol (by decide) (by decide)

/-- C9: list pagination is 1-indexed with the page size from the admin
config, and the returned total is counted on the filtered set before
pagination: with 23 matching rows and page size 10, page 1 returns rows
1-10 with total 23 and `has_next` true, and page 3 returns rows 21-23 (the
last 3) with `has_next` false. -/
theorem list_pagination_spec {α : Type} (rows : List α) (cfg : AdminCfg)
    (hlen : rows.length = 23) (hper : cfg.list_per_page = 10) :
    (∀ page, (listViewPage rows cfg page).total = rows.length)
    ∧ (listViewPage rows cfg 1).items = rows.take 10
    ∧ (listViewPage rows cfg 1).total = 23
    ∧ (listViewPage rows cfg 1).hasNext = true
    ∧ (listViewPage rows cfg 3).items = rows.drop 20
    ∧ (listViewPage rows cfg 3).items.length = 3
    ∧ (listViewPage rows cfg 3).hasNext = false := by
  refine ⟨fun page => rfl, ?_, ?_, ?_, ?_, ?_, ?_⟩
  · norm_num [listViewPage, hper]
  · simp [listViewPage, hlen]
  · norm_num [listViewPage, hper, hlen]
  · have h3 : (rows.drop 20).length ≤ 10 := by
      rw [List.length_drop, hlen]
      norm_num
    norm_num [listViewPage, hper, List.take_of_length_le h3]
  · norm_num [listViewPage, hper, hlen]
  · norm_num [listViewPage, hper, hlen]

/-- Witness for C9: the 23 rows `0..22` with page size 10; page 3 has no
next page. -/
theorem list_pagination_spec_witness :
    (listViewPage (List.range 23) { list_per_page := 10 } 3).hasNext
      = false :=
  (list_pagination_spec (List.range 23) { list_per_page := 10 }
    (by simp) rfl).2.2.2.2.2.2

end FastAdmin
